import Mathlib

/-!
Verification development for the vaccination-coverage dashboard (`app.py`).

The dashboard is a single script: it loads a CSV into a dataframe, filters it
by the sidebar selection (a list of regions and one category), and renders
derived views: a KPI panel, a bar chart of per-region means, a region-by-
vaccine pivot heatmap, and per-region breakdown charts sorted by rate.

The embedding below models the dataframe as a `List Row`, rational coverage
rates (the data's decimal literals are exact rationals; pandas stores them as
doubles, which represent these short decimals exactly for every value handled
in this development), and the pandas/numpy library calls by their documented
and implemented semantics:

* `Series.sum` / `.mean` / `.max` — fold, sum/length (`none` on an empty
  series, modelling NaN), maximum (`none` on empty);
* `groupby('Region').mean()` — group keys sorted ascending, per-key mean;
* `pivot_table(index, columns, values)` — default `aggfunc='mean'`, cells
  with no backing rows are NaN, modelled as `none`;
* `sort_values(by, ascending)` — `nargsort`: an argsort of the key column
  with numpy's default `kind='quicksort'` (introsort: median-of-3 quicksort,
  insertion sort below 17 elements, heapsort beyond the depth limit),
  translated operation-for-operation from numpy's `npysort/quicksort.c.src`
  and `npysort/heapsort.c.src`; descending order reverses the indexer;
* `@st.cache_data` — process-wide memoization: the first successful call
  executes the function and stores the result, later calls return the stored
  value without re-executing; exceptions are not cached;
* `pd.read_csv` / `DataFrame.to_csv` — loading with no validation (any
  header line names the columns and any cells load; only an absent file, an
  empty file, or a data row wider than the header raises), per-column dtype
  inference (numeric iff every present cell parses as an optionally signed
  decimal with an optional exponent; float64 on a decimal point, an
  exponent or a missing value, int64 otherwise), and re-serialization of
  numeric columns from their parsed values in shortest-decimal form.
-/

/-- One row of `vaccination_data.csv` as the app uses it: the four columns
`Region, Category, Vaccine, Coverage_Rate`. -/
structure Row where
  region : String
  category : String
  vaccine : String
  coverage_rate : ℚ
deriving DecidableEq, Repr

instance : Inhabited Row := ⟨⟨"", "", "", 0⟩⟩

/-- The sidebar state: the multiselect list of regions and the category
selectbox (one of the two chart categories). -/
structure Selection where
  regions : List String
  category : String
deriving DecidableEq, Repr

/-- Line 102: `df_filtered = df[df['Region'].isin(selected_regions)]`. -/
def filterByRegion (df : List Row) (regions : List String) : List Row :=
  df.filter (fun r => regions.contains r.region)

/-- Line 105: `df_kpi = df_filtered[df_filtered['Category'] == "Demographic"]`. -/
def kpiSlice (rows : List Row) : List Row :=
  rows.filter (fun r => r.category == "Demographic")

/-- Line 106: `df_charts = df_filtered[df_filtered['Category'] == selected_category]`. -/
def chartSlice (rows : List Row) (cat : String) : List Row :=
  rows.filter (fun r => r.category == cat)

/-- Models `Series.sum()`: left fold of addition from 0 (pandas sums an empty series
to 0.0). -/
def seriesSum (xs : List ℚ) : ℚ :=
  xs.foldl (· + ·) 0

/-- Models `Series.mean()`: sum divided by length; NaN on an empty series, modelled
as `none`. -/
def seriesMean (xs : List ℚ) : Option ℚ :=
  if xs.isEmpty then none else some (seriesSum xs / xs.length)

/-- Models `Series.max()`: maximum of the values; NaN on an empty series, modelled
as `none`. -/
def seriesMax (xs : List ℚ) : Option ℚ :=
  match xs with
  | [] => none
  | x :: rest => some (rest.foldl max x)

/-- Insert a string into a sorted duplicate-free list, keeping it sorted and
duplicate-free. Building block for pandas group keys / pivot axis labels. -/
def insertSortedDedup (x : String) : List String → List String
  | [] => [x]
  | y :: l =>
    if x = y then y :: l
    else if x < y then x :: y :: l
    else y :: insertSortedDedup x l

/-- The sorted distinct values of a column — pandas `groupby` keys (default
`sort=True`) and `pivot_table` row/column labels. -/
def sortedUnique (xs : List String) : List String :=
  xs.foldl (fun acc x => insertSortedDedup x acc) []

/-- Line 166: `df_charts.groupby('Region')['Coverage_Rate'].mean()`: one
entry per region present in the rows (keys sorted ascending), value the mean
of that region's rates. Regions with no rows simply yield no entry. -/
def regionAverages (chartRows : List Row) : List (String × ℚ) :=
  (sortedUnique (chartRows.map (fun r => r.region))).filterMap (fun nm =>
    (seriesMean ((chartRows.filter (fun r => r.region == nm)).map
      (fun r => r.coverage_rate))).map (fun m => (nm, m)))

/-- Row labels of `df_charts.pivot_table(index='Region', ...)` (line 190):
the sorted distinct regions present in the rows. -/
def pivotRegions (chartRows : List Row) : List String :=
  sortedUnique (chartRows.map (fun r => r.region))

/-- Column labels of the pivot: the sorted distinct vaccines present. -/
def pivotVaccines (chartRows : List Row) : List String :=
  sortedUnique (chartRows.map (fun r => r.vaccine))

/-- One cell of `pivot_table(index='Region', columns='Vaccine',
values='Coverage_Rate')` (lines 190-194): the default `aggfunc='mean'` of all
rows for the (region, vaccine) pair; a pair with no backing rows is a NaN
cell, modelled as `none`. -/
def pivotCell (chartRows : List Row) (regionName vaccineName : String) : Option ℚ :=
  seriesMean ((chartRows.filter
    (fun r => r.region == regionName && r.vaccine == vaccineName)).map
    (fun r => r.coverage_rate))

-- ---------------------------------------------------------------------------
-- numpy argsort (`kind='quicksort'`), the engine behind `sort_values`
-- ---------------------------------------------------------------------------

/-- Swap the entries at positions `i` and `j`, mirroring the in-place index
swaps of the numpy sorting routines. -/
def listSwap {α : Type} [Inhabited α] (l : List α) (i j : ℕ) : List α :=
  let xi := l.getD i default
  let xj := l.getD j default
  (l.set i xj).set j xi

/-- The `do ++pi; while (v[*pi] < vp)` scan of numpy's quicksort partition:
first position strictly right of `i` whose key is not below the pivot. -/
def aqScanUp {α : Type} [Inhabited α] (k : α → ℚ) (l : List α) (vp : ℚ) :
    ℕ → ℕ → ℕ
  | i, 0 => i + 1
  | i, fuel+1 =>
    let i1 := i + 1
    if k (l.getD i1 default) < vp then aqScanUp k l vp i1 fuel else i1

/-- The `do --pj; while (vp < v[*pj])` scan: first position strictly left of
`j` whose key is not above the pivot. -/
def aqScanDown {α : Type} [Inhabited α] (k : α → ℚ) (l : List α) (vp : ℚ) :
    ℕ → ℕ → ℕ
  | j, 0 => j - 1
  | j, fuel+1 =>
    let j1 := j - 1
    if vp < k (l.getD j1 default) then aqScanDown k l vp j1 fuel else j1

/-- The Hoare partition exchange loop of numpy's quicksort: scan from both
ends, swap out-of-place pairs, stop when the scans cross; returns the list
and the crossing position. -/
def aqScanLoop {α : Type} [Inhabited α] (k : α → ℚ) (vp : ℚ) :
    List α → ℕ → ℕ → ℕ → List α × ℕ
  | l, pi, _, 0 => (l, pi)
  | l, pi, pj, fuel+1 =>
    let pi1 := aqScanUp k l vp pi l.length
    let pj1 := aqScanDown k l vp pj l.length
    if pj1 ≤ pi1 then (l, pi1)
    else aqScanLoop k vp (listSwap l pi1 pj1) pi1 pj1 fuel

/-- One partition step of numpy's quicksort on the whole segment
`[0, n-1]`: median-of-3 pivot selection (positions `0`, `(n-1)/2`, `n-1`),
pivot parked at `n-2`, Hoare exchange scan, pivot swapped to the crossing
position; returns the permuted segment and the pivot position. -/
def aqPartition {α : Type} [Inhabited α] (k : α → ℚ) (l : List α) : List α × ℕ :=
  let pr := l.length - 1
  let pm := pr / 2
  let l1 := if k (l.getD pm default) < k (l.getD 0 default) then listSwap l pm 0 else l
  let l2 := if k (l1.getD pr default) < k (l1.getD pm default) then listSwap l1 pr pm else l1
  let l3 := if k (l2.getD pm default) < k (l2.getD 0 default) then listSwap l2 pm 0 else l2
  let vp := k (l3.getD pm default)
  let l4 := listSwap l3 pm (pr - 1)
  let s := aqScanLoop k vp l4 0 (pr - 1) l.length
  (listSwap s.1 s.2 (pr - 1), s.2)

/-- The sift-down of numpy's heapsort (`aheapsort`), on 1-based positions:
walk `tmp` down from position `i`, promoting the larger child, until the
child is not larger; fuel bounds the doubling walk. -/
def heapSift {α : Type} [Inhabited α] (k : α → ℚ) (n : ℕ) (tmp : α) :
    List α → ℕ → ℕ → ℕ → List α
  | l, i, _, 0 => l.set (i - 1) tmp
  | l, i, j, fuel+1 =>
    if j ≤ n then
      let j1 := if j < n ∧ k (l.getD (j - 1) default) < k (l.getD j default) then j + 1 else j
      if k tmp < k (l.getD (j1 - 1) default) then
        heapSift k n tmp (l.set (i - 1) (l.getD (j1 - 1) default)) j1 (j1 + j1) fuel
      else l.set (i - 1) tmp
    else l.set (i - 1) tmp

/-- The heap-construction loop of numpy's heapsort: sift down from positions
`n/2` down to `1`. -/
def heapBuildFrom {α : Type} [Inhabited α] (k : α → ℚ) (n : ℕ) :
    List α → ℕ → List α
  | l, 0 => l
  | l, li+1 =>
    heapBuildFrom k n
      (heapSift k n (l.getD li default) l (li + 1) ((li + 1) + (li + 1)) (n + 2)) li

/-- The extraction loop of numpy's heapsort: move the root to the end of the
shrinking heap and sift the displaced last element down from the root. -/
def heapExtract {α : Type} [Inhabited α] (k : α → ℚ) : List α → ℕ → List α
  | l, 0 => l
  | l, 1 => l
  | l, m+2 =>
    let n1 := m + 2
    let tmp := l.getD (n1 - 1) default
    let l1 := l.set (n1 - 1) (l.getD 0 default)
    let l2 := heapSift k (n1 - 1) tmp l1 1 2 (n1 + 2)
    heapExtract k l2 (m + 1)

/-- numpy's `aheapsort`: build a max-heap, then repeatedly extract. Reached
by the introsort only when the recursion-depth budget is exhausted. -/
def aheapsortSeg {α : Type} [Inhabited α] (k : α → ℚ) (l : List α) : List α :=
  heapExtract k (heapBuildFrom k l.length l (l.length / 2)) l.length

/-- Stable ascending insertion into a sorted list: the new element goes
before the first strictly greater element, hence after every element with an
equal key. This is the insertion step of numpy's small-segment insertion
sort (`for pi...`, shifting strictly greater elements right). -/
def stableInsertK {α : Type} (k : α → ℚ) (x : α) : List α → List α
  | [] => [x]
  | y :: l => if k x < k y then x :: y :: l else y :: stableInsertK k x l

/-- numpy's small-segment insertion sort: fold each element into the sorted
prefix. Stable: equal keys keep their original relative order. -/
def ainsertSeg {α : Type} (k : α → ℚ) (l : List α) : List α :=
  l.foldl (fun acc x => stableInsertK k x acc) []

/-- numpy's introsort (`npysort/quicksort.c.src`, the `kind='quicksort'`
argsort engine) on a segment: segments of at most 16 elements go to the
insertion sort (`pr - pl > SMALL_QUICKSORT` with `SMALL_QUICKSORT = 15`);
otherwise one shared depth budget is charged per partition step
(`depth_limit--`), falling back to heapsort when it runs out; after a
partition the smaller side is processed first (the larger is stacked), with
the budget threaded through in processing order. The fuel bounds the
recursion depth and never runs out when called with `length + 1`. -/
def aqsortSeg {α : Type} [Inhabited α] (k : α → ℚ) :
    List α → ℤ → ℕ → List α × ℤ
  | l, depth, 0 => (l, depth)
  | l, depth, fuel+1 =>
    if l.length > 16 then
      if depth < 0 then (aheapsortSeg k l, depth - 1)
      else
        let p := aqPartition k l
        let pi := p.2
        let left := p.1.take pi
        let piv := p.1.getD pi default
        let right := p.1.drop (pi + 1)
        if left.length < right.length then
          let r1 := aqsortSeg k left (depth - 1) fuel
          let r2 := aqsortSeg k right r1.2 fuel
          (r1.1 ++ piv :: r2.1, r2.2)
        else
          let r1 := aqsortSeg k right (depth - 1) fuel
          let r2 := aqsortSeg k left r1.2 fuel
          (r2.1 ++ piv :: r1.1, r1.2)
    else (ainsertSeg k l, depth)

/-- pandas `nargsort` with the default `kind='quicksort'`: argsort of the
values (no NaNs occur in this data, so the NaN mask is empty), with numpy's
`depth_limit = 2 * msb(n)`. Returns the permutation of positions. -/
def nargsort (vals : List ℚ) : List ℕ :=
  (aqsortSeg (fun i => vals.getD i 0) (List.range vals.length)
    (2 * Nat.log2 vals.length) (vals.length + 1)).1

/-- Models `sort_values(by=key, ascending=True)`: take the rows in argsort order. -/
def sortValuesAsc {α : Type} [Inhabited α] (k : α → ℚ) (rows : List α) : List α :=
  (nargsort (rows.map k)).map (fun i => rows.getD i default)

/-- Models `sort_values(by=key, ascending=False)`: pandas reverses the ascending
indexer (`indexer = indexer[::-1]`). -/
def sortValuesDesc {α : Type} [Inhabited α] (k : α → ℚ) (rows : List α) : List α :=
  ((nargsort (rows.map k)).reverse).map (fun i => rows.getD i default)

/-- Line 166: the bar-chart table — per-region means sorted descending. -/
def df_bar (chartRows : List Row) : List (String × ℚ) :=
  sortValuesDesc (fun p => p.2) (regionAverages chartRows)

/-- Lines 224-225: `region_data = df_charts[df_charts['Region'] ==
region_name]` followed by `sort_values(by="Coverage_Rate", ascending=True)`. -/
def regionBreakdown (chartRows : List Row) (regionName : String) : List Row :=
  sortValuesAsc (fun r => r.coverage_rate)
    (chartRows.filter (fun r => r.region == regionName))

/-- Modelled from the spec: the stable ascending sort the spec prescribes for
`regionBreakdown` — ascending by rate, ties broken by original row order. -/
def stableSortByRate (rows : List Row) : List Row :=
  ainsertSeg (fun r => r.coverage_rate) rows

-- ---------------------------------------------------------------------------
-- Rendering strings (the f-string formats of the KPI metrics)
-- ---------------------------------------------------------------------------

/-- Two right-aligned digits, for the cents part of a fixed-2 format. -/
def pad2 (n : ℤ) : String :=
  if n < 10 then ("0") ++ toString n else toString n

/-- Models the f-string format spec `.2f` for the nonnegative values of this
data (all at least a cent away from a rounding boundary, so the rounding-mode
distinction between half-even doubles and half-up rationals is vacuous). -/
def formatFixed2 (q : ℚ) : String :=
  let c : ℤ := ⌊q * 100 + 1 / 2⌋
  toString (c / 100) ++ "." ++ pad2 (c % 100)

/-- A value rendered through `f"{x:.2f}%"` (lines 142 and 151): a float NaN —
the mean/max of an empty series — formats as the literal string `nan`. -/
def renderPct : Option ℚ → String
  | none => "nan%"
  | some q => formatFixed2 q ++ "%"

/-- Group a reversed digit list into threes separated by commas (the `,`
format-spec flag); fueled to stay structural. -/
def commaChunksF : List Char → ℕ → List Char
  | ds, 0 => ds
  | ds, fuel+1 =>
    if ds.length ≤ 3 then ds
    else ds.take 3 ++ ',' :: commaChunksF (ds.drop 3) fuel

/-- Models `f"{total_children:,.0f}k"` (line 134) for the nonnegative
integral totals of this data. -/
def renderCount (q : ℚ) : String :=
  let n : ℤ := ⌊q + 1 / 2⌋
  String.mk ((commaChunksF ((Nat.toDigits 10 n.toNat).reverse) (n.toNat + 4)).reverse)
    ++ "k"

-- ---------------------------------------------------------------------------
-- The rendered sections of the page
-- ---------------------------------------------------------------------------

/-- What one section of the page displays: an explicit empty-state message
(`st.warning` / `st.info`), the three formatted KPI metrics, or a figure
carrying the numeric table it draws. -/
inductive RenderedView where
  | emptyMessage (text : String)
  | metricsPanel (totalChildren avgCoverage maxVal : String)
  | barFigure (bars : List (String × ℚ))
  | heatmapFigure (regionLabels vaccineLabels : List String)
      (cells : List (List (Option ℚ)))
  | breakdownFigures (charts : List (String × List (String × ℚ)))
deriving DecidableEq, Repr

/-- Whether a section displays an explicit empty-state message rather than a
figure or metrics. -/
def RenderedView.isEmptyMessage : RenderedView → Bool
  | .emptyMessage _ => true
  | _ => false

/-- Lines 124-155: the KPI block renders the three metrics iff `df_kpi` is
nonempty (`if not df_kpi.empty`); `avg_coverage` and `max_val` are taken
from `df_charts`, whatever its size; otherwise `st.warning` shows the
empty-state message. -/
def kpiSection (df : List Row) (sel : Selection) : RenderedView :=
  let df_kpi := kpiSlice (filterByRegion df sel.regions)
  let df_charts := chartSlice (filterByRegion df sel.regions) sel.category
  if !df_kpi.isEmpty then
    .metricsPanel
      (renderCount (seriesSum (df_kpi.map (fun r => r.coverage_rate))))
      (renderPct (seriesMean (df_charts.map (fun r => r.coverage_rate))))
      (renderPct (seriesMax (df_charts.map (fun r => r.coverage_rate))))
  else .emptyMessage ("No demographic data available for the selected filters.")

/-- Lines 164-184: the bar chart is always drawn, over `df_bar` — there is
no empty-state branch in this section. -/
def barSection (df : List Row) (sel : Selection) : RenderedView :=
  .barFigure (df_bar (chartSlice (filterByRegion df sel.regions) sel.category))

/-- Lines 187-209: the heatmap is always drawn, over the pivot table — there
is no empty-state branch in this section. -/
def heatmapSection (df : List Row) (sel : Selection) : RenderedView :=
  let df_charts := chartSlice (filterByRegion df sel.regions) sel.category
  .heatmapFigure (pivotRegions df_charts) (pivotVaccines df_charts)
    ((pivotRegions df_charts).map (fun r =>
      (pivotVaccines df_charts).map (fun v => pivotCell df_charts r v)))

/-- Lines 217-266: `if not selected_regions:` shows the `st.info` prompt;
otherwise one lollipop chart per selected region over its sorted breakdown. -/
def breakdownSection (df : List Row) (sel : Selection) : RenderedView :=
  if sel.regions.isEmpty then
    .emptyMessage
      ("Please select at least one region in the sidebar to see the detailed breakdown.")
  else
    .breakdownFigures (sel.regions.map (fun nm =>
      (nm, (regionBreakdown (chartSlice (filterByRegion df sel.regions) sel.category)
        nm).map (fun r => (r.vaccine, r.coverage_rate)))))

-- ---------------------------------------------------------------------------
-- CSV loading and re-serialization
-- ---------------------------------------------------------------------------

/-- Split a character list at every occurrence of the separator (the
splitting that `read_csv` performs on line and field boundaries); always
returns at least one group. -/
def splitOnChar (sep : Char) : List Char → List (List Char)
  | [] => [[]]
  | c :: rest =>
    match splitOnChar sep rest with
    | [] => [[]]
    | g :: gs => if c = sep then [] :: g :: gs else (c :: g) :: gs

/-- The value of one digit character. -/
def digitVal (c : Char) : Option ℕ :=
  if c.isDigit then some (c.toNat - 48) else none

/-- A nonempty all-digit string as a number. -/
def digitsVal (cs : List Char) : Option ℕ :=
  if cs.isEmpty then none
  else cs.foldl (fun acc c => acc.bind (fun n => (digitVal c).map (fun d => 10 * n + d)))
    (some 0)

/-- Digits with an optional single decimal point (at least one digit
overall), as a rational; the Bool records whether a decimal point is
present. Accepts `80`, `80.5`, `80.`, `.5`. -/
def parseMantissa (cs : List Char) : Option (ℚ × Bool) :=
  match splitOnChar '.' cs with
  | [a] => (digitsVal a).map (fun n => ((n : ℚ), false))
  | [a, b] =>
    if a.isEmpty && b.isEmpty then none
    else
      match (if a.isEmpty then some 0 else digitsVal a),
          (if b.isEmpty then some 0 else digitsVal b) with
      | some n, some f =>
        some ((n : ℚ) + (f : ℚ) / ((10 ^ b.length : ℕ) : ℚ), true)
      | _, _ => none
  | _ => none

/-- A mantissa with an optional leading sign. -/
def parseSignedMantissa : List Char → Option (ℚ × Bool)
  | '-' :: rest => (parseMantissa rest).map (fun p => (-p.1, p.2))
  | '+' :: rest => parseMantissa rest
  | cs => parseMantissa cs

/-- An optionally signed exponent part. -/
def parseExpPart : List Char → Option ℤ
  | '-' :: rest => (digitsVal rest).map (fun n => -(n : ℤ))
  | '+' :: rest => (digitsVal rest).map (fun n => (n : ℤ))
  | cs => (digitsVal cs).map (fun n => (n : ℤ))

/-- A numeric cell token as pandas type inference accepts it: an optionally
signed mantissa with an optional `e`/`E` exponent. The Bool is whether the
token forces a float64 column (a decimal point or an exponent); bare signed
integers leave the column int64. The special float tokens (`nan`, `inf`)
and values beyond the int64 range are outside the modelled domain. -/
def parseNumber (s : String) : Option (ℚ × Bool) :=
  match splitOnChar 'e' (s.data.map Char.toLower) with
  | [m] => parseSignedMantissa m
  | [m, ex] =>
    match parseSignedMantissa m, parseExpPart ex with
    | some p, some e => some (p.1 * (10 : ℚ) ^ e, true)
    | _, _ => none
  | _ => none

/-- The loaded dataframe exactly as `pd.read_csv` returns it: the header
line's fields are the column names and every further line's fields a data
row (a short row is NaN-padded with `none`). pandas validates nothing about
the header names or the cell contents. -/
structure RawFrame where
  cols : List String
  cells : List (List (Option String))
deriving DecidableEq, Repr

/-- The load-time failures `pd.read_csv` actually raises: the
`FileNotFoundError` the script catches; `EmptyDataError` for a source with
no lines; and the C parser tokenizing `ParserError` for a data row wider
than the header. (The special case of a file whose every data row is
exactly one field wider than the header, which pandas instead reads with an
implicit index column, does not arise in this development and is not
modelled.) Malformed contents — wrong header names, extra columns,
non-numeric cells — are NOT load errors: they load. -/
inductive LoadErr where
  | fileNotFound
  | emptyData
  | tokenizeError
deriving DecidableEq, Repr

/-- The backing source file: absent, or present with the given bytes. -/
inductive SourceStatus where
  | absent
  | content (text : String)
deriving DecidableEq, Repr

/-- Line 61: `pd.read_csv("vaccination_data.csv")`: raises on an absent
file; otherwise the first non-blank line's fields become the column names
and every further non-blank line's fields a data row — with no validation
of the names or the cell contents (blank lines skipped per
`skip_blank_lines`, short rows NaN-padded, an empty source or a row wider
than the header raising as documented on `LoadErr`). -/
def read_csv (src : SourceStatus) : Except LoadErr RawFrame :=
  match src with
  | .absent => .error .fileNotFound
  | .content t =>
    match ((splitOnChar '\n' t.data).map (fun cs => String.mk cs)).filter
        (fun ln => ln ≠ "") with
    | [] => .error .emptyData
    | header :: rest =>
      let cols := (splitOnChar ',' header.data).map (fun cs => String.mk cs)
      let rows := rest.map (fun ln =>
        (splitOnChar ',' ln.data).map (fun cs => String.mk cs))
      if rows.any (fun r => cols.length < r.length) then .error .tokenizeError
      else
        .ok ⟨cols, rows.map (fun r =>
          r.map some ++ List.replicate (cols.length - r.length) none)⟩

/-- The cells of column `j`, top to bottom. -/
def columnCells (raw : RawFrame) (j : ℕ) : List (Option String) :=
  raw.cells.map (fun row => row.getD j none)

/-- pandas dtype inference: a column is numeric (int64 or float64) iff every
present cell parses as a number; missing cells (NaN) do not block it. -/
def columnNumeric (cells : List (Option String)) : Bool :=
  cells.all (fun c => match c with
    | none => true
    | some s => (parseNumber s).isSome)

/-- Whether a numeric column is float64 rather than int64: some cell is
missing (NaN) or some token carries a decimal point or an exponent. -/
def columnFloat (cells : List (Option String)) : Bool :=
  cells.any (fun c => match c with
    | none => true
    | some s =>
      match parseNumber s with
      | some p => p.2
      | none => false)

/-- The typed table the pipeline sections consume: the four columns the app
uses, with the rate parsed, plus the inferred dtype of the `Coverage_Rate`
column (float64 or int64). -/
structure Frame where
  rows : List Row
  rateFloat : Bool
deriving DecidableEq, Repr

/-- The app's typed view of a loaded frame: `some` exactly when the four
columns the script accesses (`Region`, `Category`, `Vaccine`,
`Coverage_Rate`) all exist, every row carries all four cells, and the rate
column is numeric. These are precisely the frames on which the script's
render reaches every section. On any other successfully loaded frame the
script still proceeds past the load, but dies mid-run on an uncaught
exception (a `KeyError` at line 78 for a missing column; an aggregation or
formatting error in the KPI block for a non-numeric rate column with a
selected demographic row), after rendering only what precedes the failing
line. -/
def typedFrame (raw : RawFrame) : Option Frame :=
  match raw.cols.findIdx? (fun c => c == "Region"),
      raw.cols.findIdx? (fun c => c == "Category"),
      raw.cols.findIdx? (fun c => c == "Vaccine"),
      raw.cols.findIdx? (fun c => c == "Coverage_Rate") with
  | some ir, some ic, some iv, some ix =>
    (raw.cells.mapM (fun (row : List (Option String)) =>
      match row.getD ir none, row.getD ic none, row.getD iv none,
          row.getD ix none with
      | some rg, some ct, some vc, some xs =>
        (parseNumber xs).map (fun (p : ℚ × Bool) => (⟨rg, ct, vc, p.1⟩ : Row))
      | _, _, _, _ => none)).map
      (fun rows => ⟨rows, columnFloat (columnCells raw ix)⟩)
  | _, _, _, _ => none

/-- The fractional digits of a decimal rational, most significant first. -/
def fracDigitsAux : ℚ → ℕ → List Char
  | _, 0 => []
  | f, fuel+1 =>
    if f = 0 then []
    else
      let f10 := f * 10
      let d : ℤ := ⌊f10⌋
      Char.ofNat (48 + d.toNat) :: fracDigitsAux (f10 - (d : ℚ)) fuel

/-- The shortest-decimal magnitude of a float cell under `to_csv` (the repr
of a double recovered from a short decimal literal is that shortest
decimal, with integral values written with a trailing `.0`). For the
nonnegative decimal rationals produced by `parseNumber`. -/
def floatMagRepr (q : ℚ) : String :=
  let ip : ℤ := ⌊q⌋
  let f := q - (ip : ℚ)
  toString ip ++ "." ++ (if f = 0 then ("0") else String.mk (fracDigitsAux f 40))

/-- The repr of a float cell: sign plus shortest-decimal magnitude. -/
def floatRepr (q : ℚ) : String :=
  if q < 0 then "-" ++ floatMagRepr (-q) else floatMagRepr q

/-- One serialized cell of `to_csv`: missing values print as the empty
string; cells of a numeric column print from their parsed value in the
column dtype (so `80.50` comes back as `80.5`); object columns print
verbatim. -/
def serializeCell (isNum isFloat : Bool) (c : Option String) : String :=
  match c with
  | none => ""
  | some s =>
    if isNum then
      match parseNumber s with
      | some p => if isFloat then floatRepr p.1 else toString p.1.num
      | none => s
    else s

/-- Comma-join of a line's fields (the fields of this data hold no commas
or quotes, so no quoting arises). -/
def commaJoin : List String → String
  | [] => ""
  | [c] => c
  | c :: cs => c ++ "," ++ commaJoin cs

/-- Line 274: `df.to_csv(index=False)`: the column names then every row of
the full frame, each line newline-terminated, numeric columns re-serialized
from their parsed values. -/
def to_csv (raw : RawFrame) : String :=
  let flags := (List.range raw.cols.length).map (fun j =>
    (columnNumeric (columnCells raw j), columnFloat (columnCells raw j)))
  commaJoin raw.cols ++ "\n"
    ++ String.join (raw.cells.map (fun row =>
      commaJoin ((List.range raw.cols.length).map (fun j =>
        serializeCell (flags.getD j (false, false)).1
          (flags.getD j (false, false)).2 (row.getD j none))) ++ "\n"))

-- ---------------------------------------------------------------------------
-- The memoized loader and the page
-- ---------------------------------------------------------------------------

/-- The process-wide state `@st.cache_data` keeps for `load_data`: the
memoized frame, if any, and how many times the backing source was read. -/
structure CacheState where
  cached : Option RawFrame
  reads : ℕ
deriving DecidableEq, Repr

/-- Lines 58-62: `load_data` under `@st.cache_data`: a cache hit returns
the stored frame without touching the source; a miss reads the source,
counting the read, and caches the frame on success (exceptions are not
cached). -/
def load_data (src : SourceStatus) (s : CacheState) :
    Except LoadErr RawFrame × CacheState :=
  match s.cached with
  | some f => (.ok f, s)
  | none =>
    match read_csv src with
    | .ok f => (.ok f, ⟨some f, s.reads + 1⟩)
    | .error e => (.error e, ⟨none, s.reads + 1⟩)

/-- What one script run produces: an error shown in place of the page body
with the rest of the render halted (`handled` distinguishes the caught
`FileNotFoundError` with its `st.error`/`st.stop` from an uncaught
load-time exception, which likewise aborts before any section renders); or
the full dashboard with its four sections and the download payload, reached
exactly on frames in the typed domain; or `untypedRun`: the load succeeded
on a frame outside the typed domain, so no load error is surfaced and the
script continues — generally dying mid-render on an uncaught exception
after partially rendering the page (see `typedFrame`); the model does not
chart that partial output further. -/
inductive Page where
  | errorHalt (handled : Bool) (msg : String)
  | dashboard (kpi bar heat breakdown : RenderedView) (csvData : String)
  | untypedRun (raw : RawFrame)
deriving DecidableEq, Repr

/-- Whether the run halted at the load with an error in place of the body
(no section rendered, pipeline never run). -/
def Page.isErrorHalt : Page → Bool
  | .errorHalt _ _ => true
  | _ => false

/-- The download payload of the run, when the dashboard rendered. -/
def Page.csvPayload : Page → Option String
  | .dashboard _ _ _ _ c => some c
  | _ => none

/-- One run of the script (lines 64-296): load through the cache; on a load
error halt with the error in place of the body; on a typed frame render the
four sections and offer the full raw frame re-serialized as the download;
on an untyped frame the script proceeds past the load (and dies later,
mid-render). -/
def runApp (src : SourceStatus) (cache : CacheState) (sel : Selection) : Page :=
  match (load_data src cache).1 with
  | .error .fileNotFound =>
    .errorHalt true
      ("The file vaccination_data.csv was not found. Please ensure it is in the same directory as app.py.")
  | .error .emptyData =>
    .errorHalt false ("Uncaught EmptyDataError raised by pd.read_csv.")
  | .error .tokenizeError =>
    .errorHalt false ("Uncaught ParserError raised by pd.read_csv.")
  | .ok raw =>
    match typedFrame raw with
    | some f =>
      .dashboard (kpiSection f.rows sel) (barSection f.rows sel)
        (heatmapSection f.rows sel) (breakdownSection f.rows sel) (to_csv raw)
    | none => .untypedRun raw

/-- The typed table a source loads to, when it loads and lies in the typed
domain — the content a reader compares across serializations. -/
def loadedTable (src : SourceStatus) : Option Frame :=
  match read_csv src with
  | .ok raw => typedFrame raw
  | .error _ => none

-- ---------------------------------------------------------------------------
-- Reference definitions (from the spec's words) and concrete datasets
-- ---------------------------------------------------------------------------

/-- Modelled from the spec: the reference arithmetic mean a test would
compute over the same rows. -/
def referenceMean (xs : List ℚ) : ℚ :=
  xs.sum / xs.length

/-- The end-to-end scenario dataset of the spec: regions `A`, `B` with one
`Summary Indicator` `BCG` row each (80 and 90) and one `Demographic` row
each (1000 and 2000). -/
def exDf5 : List Row :=
  [⟨"A", "Summary Indicator", "BCG", 80⟩,
   ⟨"B", "Summary Indicator", "BCG", 90⟩,
   ⟨"A", "Demographic", "Total", 1000⟩,
   ⟨"B", "Demographic", "Total", 2000⟩]

/-- The end-to-end scenario selection: both regions, `Summary Indicator`. -/
def exSel5 : Selection := ⟨["A", "B"], "Summary Indicator"⟩

/-- Chart rows with duplicate `(A, BCG)` entries of rates 40 and 60. -/
def exDupRows : List Row :=
  [⟨"A", "Basic Antigen", "BCG", 40⟩,
   ⟨"A", "Basic Antigen", "BCG", 60⟩]

/-- Seventeen chart rows of one region, all with the same rate: numpy's
quicksort partitions any segment above 16 elements, and a partition step
swaps tied elements. -/
def exTie17 : List Row :=
  (List.range 17).map (fun i => ⟨"A", "Basic Antigen", "V" ++ toString i, 50⟩)

/-- Two tied rows (and one below them), within the insertion-sort regime. -/
def exTieSmall : List Row :=
  [⟨"A", "Basic Antigen", "P1", 70⟩,
   ⟨"A", "Basic Antigen", "P2", 70⟩,
   ⟨"A", "Basic Antigen", "P0", 30⟩]

/-- A backing file whose rate cell `80.50` is not in shortest-decimal form. -/
def exSrc9 : String :=
  "Region,Category,Vaccine,Coverage_Rate\nA,Basic Antigen,BCG,80.50\n"

/-- What the download button serves after loading `exSrc9`: the same table,
with the rate cell re-serialized canonically. -/
def exOut9 : String :=
  "Region,Category,Vaccine,Coverage_Rate\nA,Basic Antigen,BCG,80.5\n"

/-- A dataset where region `A` has chart rows only for `Basic Antigen`, so it
has zero rows under the `Summary Indicator` selection while `B` has one. -/
def exDf4 : List Row :=
  [⟨"A", "Basic Antigen", "BCG", 50⟩,
   ⟨"B", "Summary Indicator", "FIC", 90⟩]

/-- A small well-formed backing file for the loader theorems. -/
def exSrc7 : String :=
  "Region,Category,Vaccine,Coverage_Rate\nA,Demographic,Total,1000\n"

/-- The raw frame `exSrc7` loads to. -/
def exFrame7 : RawFrame :=
  ⟨["Region", "Category", "Vaccine", "Coverage_Rate"],
   [[some ("A"), some ("Demographic"), some ("Total"), some ("1000")]]⟩

/-- A malformed backing file: the rate cell is the non-numeric token
`unknown`. pandas loads it anyway; the rate column becomes object dtype. -/
def exSrc8 : String :=
  "Region,Category,Vaccine,Coverage_Rate\nA,Demographic,Total,unknown\n"

/-- The raw frame `exSrc8` loads to. -/
def exRaw8 : RawFrame :=
  ⟨["Region", "Category", "Vaccine", "Coverage_Rate"],
   [[some ("A"), some ("Demographic"), some ("Total"), some ("unknown")]]⟩

-- ---------------------------------------------------------------------------
-- Helper lemmas
-- ---------------------------------------------------------------------------

theorem seriesSum_eq_sum (xs : List ℚ) : seriesSum xs = xs.sum :=
  List.sum_eq_foldl.symm

theorem filterByRegion_nil (df : List Row) : filterByRegion df [] = [] :=
  List.filter_eq_nil_iff.mpr (fun a _ => by simp)

theorem foldl_max_mem (xs : List ℚ) : ∀ x, xs.foldl max x ∈ x :: xs := by
  induction xs with
  | nil => intro x; simp
  | cons y ys ih =>
    intro x
    have h := ih (max x y)
    simp only [List.foldl_cons]
    rcases List.mem_cons.mp h with h1 | h1
    · rw [h1]
      rcases max_choice x y with h2 | h2 <;> rw [h2] <;> simp
    · exact List.mem_cons_of_mem _ (List.mem_cons_of_mem _ h1)

theorem le_foldl_max_self (xs : List ℚ) : ∀ x, x ≤ xs.foldl max x := by
  induction xs with
  | nil => intro x; simp
  | cons y ys ih =>
    intro x
    simp only [List.foldl_cons]
    exact le_trans (le_max_left x y) (ih (max x y))

theorem le_foldl_max (xs : List ℚ) : ∀ x y, y ∈ x :: xs → y ≤ xs.foldl max x := by
  induction xs with
  | nil => intro x y h; simp at h; simp [h]
  | cons z zs ih =>
    intro x y h
    simp only [List.foldl_cons]
    rcases List.mem_cons.mp h with h1 | h1
    · rw [h1]
      exact le_trans (le_max_left x z) (le_foldl_max_self zs (max x z))
    · rcases List.mem_cons.mp h1 with h2 | h2
      · rw [h2]
        exact le_trans (le_max_right x z) (le_foldl_max_self zs (max x z))
      · exact ih (max x z) y (List.mem_cons_of_mem _ h2)

-- ---------------------------------------------------------------------------
-- Claim theorems
-- ---------------------------------------------------------------------------

/-- Claim C5: on the spec's end-to-end dataset under the selection
`{regions: {A, B}, category: "Summary Indicator"}`, the pipeline yields
total target population 3000, average coverage 85, region averages
`[(A, 80), (B, 90)]`, and pivot cells `(A, BCG) = 80`, `(B, BCG) = 90`
(with exactly those axis labels). -/
theorem c5_end_to_end_scenario :
    seriesSum ((kpiSlice (filterByRegion exDf5 exSel5.regions)).map
      (fun r => r.coverage_rate)) = 3000
    ∧ seriesMean ((chartSlice (filterByRegion exDf5 exSel5.regions)
        exSel5.category).map (fun r => r.coverage_rate)) = some 85
    ∧ regionAverages (chartSlice (filterByRegion exDf5 exSel5.regions)
        exSel5.category) = [("A", 80), ("B", 90)]
    ∧ pivotCell (chartSlice (filterByRegion exDf5 exSel5.regions)
        exSel5.category) "A" "BCG" = some 80
    ∧ pivotCell (chartSlice (filterByRegion exDf5 exSel5.regions)
        exSel5.category) "B" "BCG" = some 90
    ∧ pivotRegions (chartSlice (filterByRegion exDf5 exSel5.regions)
        exSel5.category) = ["A", "B"]
    ∧ pivotVaccines (chartSlice (filterByRegion exDf5 exSel5.regions)
        exSel5.category) = ["BCG"] := by
  refine ⟨?_, ?_, ?_, ?_, ?_, ?_, ?_⟩ <;>
    simp +decide [exDf5, exSel5, filterByRegion, kpiSlice, chartSlice, seriesSum,
      seriesMean, regionAverages, pivotCell, pivotRegions, pivotVaccines,
      sortedUnique, insertSortedDedup, List.filter_cons] <;>
    norm_num

/-- Claim C3: whenever the chart rows hold exactly two duplicate rows for a
(region, vaccine) pair, with rates `a` and `b`, the pivot cell is their
arithmetic mean `(a + b) / 2` (the default `aggfunc='mean'`), not either
duplicate and not an error. -/
theorem c3_pivot_duplicates_mean (chartRows : List Row) (r v : String) (a b : ℚ)
    (h : (chartRows.filter (fun x => x.region == r && x.vaccine == v)).map
      (fun x => x.coverage_rate) = [a, b]) :
    pivotCell chartRows r v = some ((a + b) / 2) := by
  unfold pivotCell
  rw [h]
  simp [seriesMean, seriesSum]

/-- Witness for C3 at duplicate rates `[40, 60]`: the cell is 50, and 50 is
neither 40 nor 60. -/
theorem c3_witness :
    pivotCell exDupRows ("A") ("BCG") = some 50 ∧ (50 : ℚ) ≠ 40 ∧ (50 : ℚ) ≠ 60 := by
  have h := c3_pivot_duplicates_mean exDupRows ("A") ("BCG") 40 60 (by decide)
  norm_num at h
  exact ⟨h, by norm_num, by norm_num⟩

/-- Claim C6: over a non-empty rate series, `Series.mean` equals the
reference arithmetic mean exactly (rational arithmetic, hence within any
tolerance) and `Series.max` returns an element that bounds the series from
above; over the empty series both are the NaN sentinel `none`, which renders
as `nan%` — not as the rendering of 0. -/
theorem c6_aggregates_reference (rates : List ℚ) :
    (rates ≠ [] →
      seriesMean rates = some (referenceMean rates)
      ∧ ∃ m, seriesMax rates = some m ∧ m ∈ rates ∧ ∀ x ∈ rates, x ≤ m)
    ∧ (rates = [] →
      seriesMean rates = none ∧ seriesMax rates = none
      ∧ renderPct (seriesMean rates) = "nan%"
      ∧ renderPct (seriesMean rates) ≠ renderPct (some 0)) := by
  constructor
  · intro h
    constructor
    · unfold seriesMean referenceMean
      rw [if_neg (by simpa [List.isEmpty_iff] using h), seriesSum_eq_sum]
    · match rates, h with
      | x :: rest, _ =>
        exact ⟨rest.foldl max x, rfl, foldl_max_mem rest x, le_foldl_max rest x⟩
  · intro h
    subst h
    have hf : (⌊(0 : ℚ) * 100 + 1 / 2⌋ : ℤ) = 0 := by
      rw [Int.floor_eq_iff]
      constructor <;> norm_num
    refine ⟨rfl, rfl, rfl, ?_⟩
    show ("nan%") ≠ renderPct (some 0)
    simp only [renderPct, formatFixed2, hf]
    decide

/-- Witness for C6 on the non-empty series `[80, 90]`. -/
theorem c6_witness :
    seriesMean [(80 : ℚ), 90] = some (referenceMean [(80 : ℚ), 90])
    ∧ seriesMax [(80 : ℚ), 90] = some 90 := by
  have h := (c6_aggregates_reference [(80 : ℚ), 90]).1 (by simp)
  refine ⟨h.1, ?_⟩
  simp [seriesMax, max_eq_right (show (80 : ℚ) ≤ 90 by norm_num)]

/-- Claim C10: the KPI block is gated solely on the Demographic slice. An
empty Demographic slice shows the warning whatever the chart slice holds; a
non-empty one renders all three metrics, with mean and max taken over the
chart slice — and when that slice is empty they are NaN, rendered `nan%`. -/
theorem c10_kpi_gated_on_demographic (df : List Row) (sel : Selection) :
    (kpiSlice (filterByRegion df sel.regions) = [] →
      kpiSection df sel
        = .emptyMessage ("No demographic data available for the selected filters."))
    ∧ (kpiSlice (filterByRegion df sel.regions) ≠ [] →
      kpiSection df sel = .metricsPanel
        (renderCount (seriesSum ((kpiSlice (filterByRegion df sel.regions)).map
          (fun r => r.coverage_rate))))
        (renderPct (seriesMean ((chartSlice (filterByRegion df sel.regions)
          sel.category).map (fun r => r.coverage_rate))))
        (renderPct (seriesMax ((chartSlice (filterByRegion df sel.regions)
          sel.category).map (fun r => r.coverage_rate)))))
    ∧ (kpiSlice (filterByRegion df sel.regions) ≠ [] →
      chartSlice (filterByRegion df sel.regions) sel.category = [] →
      kpiSection df sel = .metricsPanel
        (renderCount (seriesSum ((kpiSlice (filterByRegion df sel.regions)).map
          (fun r => r.coverage_rate))))
        ("nan%") ("nan%")) := by
  refine ⟨?_, ?_, ?_⟩
  · intro h
    simp [kpiSection, h]
  · intro h
    have he : (kpiSlice (filterByRegion df sel.regions)).isEmpty = false := by
      simpa [List.isEmpty_iff] using h
    simp [kpiSection, he]
  · intro h h2
    have he : (kpiSlice (filterByRegion df sel.regions)).isEmpty = false := by
      simpa [List.isEmpty_iff] using h
    simp [kpiSection, he, h2, seriesMean, seriesMax, renderPct]

/-- Witness for C10: on the scenario dataset with category
`Basic Antigen` (no chart rows), the metrics still render, with the mean and
max shown as `nan%`. -/
theorem c10_witness :
    kpiSection exDf5 ⟨["A", "B"], "Basic Antigen"⟩
      = .metricsPanel (renderCount 3000) ("nan%") ("nan%") := by
  have h := (c10_kpi_gated_on_demographic exDf5 ⟨["A", "B"], "Basic Antigen"⟩).2.2
    (by decide) (by decide)
  have hs : seriesSum ((kpiSlice (filterByRegion exDf5
      (Selection.mk ["A", "B"] "Basic Antigen").regions)).map
      (fun r => r.coverage_rate)) = 3000 := by
    simp +decide [exDf5, filterByRegion, kpiSlice, seriesSum, List.filter_cons]
    norm_num
  rw [h, hs]

/-- Claim C1 (amended): with an empty `regions` selection, the KPI section
and the breakdown section show explicit empty-state messages and no
aggregate is computed or formatted as a number; the bar-chart and heatmap
sections, however, do not show an explicit empty state — they render figures
over the empty slice (an empty bar table and an empty matrix). -/
theorem c1_empty_selection_views (df : List Row) (cat : String) :
    kpiSection df ⟨[], cat⟩
      = .emptyMessage ("No demographic data available for the selected filters.")
    ∧ breakdownSection df ⟨[], cat⟩
      = .emptyMessage
        ("Please select at least one region in the sidebar to see the detailed breakdown.")
    ∧ barSection df ⟨[], cat⟩ = .barFigure []
    ∧ heatmapSection df ⟨[], cat⟩ = .heatmapFigure [] [] [] := by
  have h0 : filterByRegion df [] = [] := filterByRegion_nil df
  refine ⟨?_, ?_, ?_, ?_⟩
  · show kpiSection df ⟨[], cat⟩ = _
    unfold kpiSection
    rw [h0]
    rfl
  · rfl
  · show barSection df ⟨[], cat⟩ = _
    unfold barSection
    rw [h0]
    rfl
  · show heatmapSection df ⟨[], cat⟩ = _
    unfold heatmapSection
    rw [h0]
    rfl

/-- Counterexample to C1 as stated: on the scenario dataset with the empty
regions selection, the bar-chart section is a rendered figure (an empty
chart), not an explicit empty/no-selection message — so not every derived
view reports an explicit empty state. -/
theorem c1_counterexample :
    (barSection exDf5 ⟨[], "Basic Antigen"⟩).isEmptyMessage = false := by
  rfl

/-- Claim C7: `load_data` under `@st.cache_data` is idempotent within a
process — after a first successful call, a second call returns the very same
frame and leaves the cache state (including the source read count)
untouched: the backing source is not re-read. -/
theorem c7_load_data_idempotent (src : SourceStatus) (s : CacheState)
    (f : RawFrame) (s2 : CacheState)
    (h : load_data src s = (Except.ok f, s2)) :
    load_data src s2 = (Except.ok f, s2) := by
  cases hc : s.cached with
  | some g =>
    simp only [load_data, hc] at h
    have h1 : Except.ok (ε := LoadErr) g = Except.ok f := congrArg Prod.fst h
    have h2 : s = s2 := congrArg Prod.snd h
    injection h1 with h3
    subst h3
    subst h2
    simp only [load_data, hc]
  | none =>
    simp only [load_data, hc] at h
    cases hr : read_csv src with
    | ok g =>
      rw [hr] at h
      have h1 : Except.ok (ε := LoadErr) g = Except.ok f := congrArg Prod.fst h
      have h2 : (⟨some g, s.reads + 1⟩ : CacheState) = s2 := congrArg Prod.snd h
      injection h1 with h3
      subst h3
      subst h2
      simp only [load_data]
    | error e =>
      rw [hr] at h
      exact absurd (congrArg Prod.fst h) (by simp)

/-- Witness for C7: loading `exSrc7` cold reads the source once; the second
call returns the same frame with the read count still 1. -/
theorem c7_witness :
    load_data (.content exSrc7) ⟨none, 0⟩ = (Except.ok exFrame7, ⟨some exFrame7, 1⟩)
    ∧ load_data (.content exSrc7) ⟨some exFrame7, 1⟩
      = (Except.ok exFrame7, ⟨some exFrame7, 1⟩) := by
  have h1 : load_data (.content exSrc7) ⟨none, 0⟩
      = (Except.ok exFrame7, ⟨some exFrame7, 1⟩) := by with_unfolding_all rfl
  exact ⟨h1, c7_load_data_idempotent _ _ _ _ h1⟩

/-- Claim C8 (amended): only an absent backing source produces the claimed
behavior — `pd.read_csv` raises the `FileNotFoundError` the script catches,
the error is surfaced in place of the page body, and the run halts with the
pipeline never run. A malformed source is not rejected at the load:
`pd.read_csv` validates neither the header nor the cells, so whenever a
present source loads (and malformed contents do load), the run never halts
at the load — the script proceeds into the page. -/
theorem c8_absent_halts_malformed_loads (sel : Selection) :
    read_csv .absent = Except.error .fileNotFound
    ∧ runApp .absent ⟨none, 0⟩ sel
      = .errorHalt true
        ("The file vaccination_data.csv was not found. Please ensure it is in the same directory as app.py.")
    ∧ ∀ (t : String) (raw : RawFrame),
        read_csv (.content t) = Except.ok raw →
        (runApp (.content t) ⟨none, 0⟩ sel).isErrorHalt = false := by
  refine ⟨rfl, rfl, ?_⟩
  intro t raw h
  simp only [runApp, load_data, h]
  cases typedFrame raw <;> rfl

/-- Witness for C8: an absent file halts the run with the handled error,
while a present well-formed file loads and the run proceeds without any
halt at the load. -/
theorem c8_witness :
    runApp .absent ⟨none, 0⟩ exSel5
      = .errorHalt true
        ("The file vaccination_data.csv was not found. Please ensure it is in the same directory as app.py.")
    ∧ (runApp (.content exSrc7) ⟨none, 0⟩ exSel5).isErrorHalt = false :=
  ⟨(c8_absent_halts_malformed_loads exSel5).2.1,
   (c8_absent_halts_malformed_loads exSel5).2.2 exSrc7 exFrame7
     (by with_unfolding_all rfl)⟩

/-- Counterexample to C8 as stated: a backing file whose rate cell is the
non-numeric token `unknown` is malformed (the spec types `Coverage_Rate` as
a number), yet `pd.read_csv` loads it without error and the script proceeds
past the load into the page — no `DataUnavailable` failure, no halt with an
error in place of the body, and the render only dies later, mid-page, on
the object-dtype rate column. -/
theorem c8_counterexample :
    read_csv (.content exSrc8) = Except.ok exRaw8
    ∧ runApp (.content exSrc8) ⟨none, 0⟩ exSel5 = .untypedRun exRaw8
    ∧ (runApp (.content exSrc8) ⟨none, 0⟩ exSel5).isErrorHalt = false := by
  refine ⟨by with_unfolding_all rfl, by with_unfolding_all rfl,
    by with_unfolding_all rfl⟩

/-- Claim C9 (amended): the download payload is the full original frame
re-serialized with `to_csv`, independent of the current selection (and of
every filtered view), whenever the run reaches the download button (that
is, on frames in the typed domain); it is content-equivalent to the loaded
table but not, in general, byte-for-byte identical to the backing file. -/
theorem c9_export_full_frame (src : SourceStatus) (cache : CacheState)
    (sel sel2 : Selection) (raw : RawFrame)
    (h : (load_data src cache).1 = Except.ok raw)
    (ht : (typedFrame raw).isSome = true) :
    (runApp src cache sel).csvPayload = some (to_csv raw)
    ∧ (runApp src cache sel2).csvPayload = some (to_csv raw) := by
  rcases Option.isSome_iff_exists.mp ht with ⟨f, hf⟩
  constructor <;> · simp only [runApp, h, hf]; rfl

/-- Witness for C9: two different selections over the same loaded source
yield the same payload, the full frame's serialization. -/
theorem c9_witness :
    (runApp (.content exSrc7) ⟨none, 0⟩ exSel5).csvPayload = some (to_csv exFrame7)
    ∧ (runApp (.content exSrc7) ⟨none, 0⟩ ⟨[], "Basic Antigen"⟩).csvPayload
      = some (to_csv exFrame7) :=
  c9_export_full_frame (.content exSrc7) ⟨none, 0⟩ exSel5 ⟨[], "Basic Antigen"⟩
    exFrame7 (by with_unfolding_all rfl) (by with_unfolding_all rfl)

/-- Counterexample to C9 as stated: loading a file whose rate cell reads
`80.50` and exporting yields `80.5` — the payload is content-equivalent to
the source (both serializations load to the identical typed table) but not
byte-for-byte equal to it. -/
theorem c9_counterexample :
    (runApp (.content exSrc9) ⟨none, 0⟩ exSel5).csvPayload = some exOut9
    ∧ exOut9 ≠ exSrc9
    ∧ loadedTable (.content exOut9) = loadedTable (.content exSrc9)
    ∧ (loadedTable (.content exSrc9)).isSome = true := by
  refine ⟨by with_unfolding_all rfl, by decide, by with_unfolding_all rfl,
    by with_unfolding_all rfl⟩

-- ---------------------------------------------------------------------------
-- Helper lemmas for the sort and the group keys
-- ---------------------------------------------------------------------------

theorem mem_stableInsertK {α : Type} {k : α → ℚ} {x y : α} :
    ∀ {l : List α}, y ∈ stableInsertK k x l → y = x ∨ y ∈ l := by
  intro l
  induction l with
  | nil => intro h; simpa [stableInsertK] using h
  | cons z zs ih =>
    intro h
    unfold stableInsertK at h
    by_cases hc : k x < k z
    · rw [if_pos hc] at h
      rcases List.mem_cons.mp h with h1 | h1
      · exact Or.inl h1
      · exact Or.inr h1
    · rw [if_neg hc] at h
      rcases List.mem_cons.mp h with h1 | h1
      · exact Or.inr (by simp [h1])
      · rcases ih h1 with h2 | h2
        · exact Or.inl h2
        · exact Or.inr (List.mem_cons_of_mem _ h2)

theorem stableInsertK_map {α β : Type} (g : α → β) (ka : α → ℚ) (kb : β → ℚ)
    (x : α) : ∀ l : List α, ka x = kb (g x) → (∀ y ∈ l, ka y = kb (g y)) →
    (stableInsertK ka x l).map g = stableInsertK kb (g x) (l.map g) := by
  intro l
  induction l with
  | nil => intro hx hl; simp [stableInsertK]
  | cons z zs ih =>
    intro hx hl
    have hz : ka z = kb (g z) := hl z (by simp)
    simp only [stableInsertK, List.map_cons]
    rw [← hx, ← hz]
    by_cases hc : ka x < ka z
    · rw [if_pos hc, if_pos hc]
      simp
    · rw [if_neg hc, if_neg hc]
      simp only [List.map_cons]
      rw [ih hx (fun y hy => hl y (List.mem_cons_of_mem _ hy))]

theorem ainsertFold_map {α β : Type} (g : α → β) (ka : α → ℚ) (kb : β → ℚ) :
    ∀ (l acc : List α), (∀ y ∈ acc, ka y = kb (g y)) → (∀ y ∈ l, ka y = kb (g y)) →
    (l.foldl (fun a x => stableInsertK ka x a) acc).map g
      = (l.map g).foldl (fun a y => stableInsertK kb y a) (acc.map g) := by
  intro l
  induction l with
  | nil => intro acc h1 h2; simp
  | cons x xs ih =>
    intro acc h1 h2
    simp only [List.foldl_cons, List.map_cons]
    have hx : ka x = kb (g x) := h2 x (by simp)
    have hacc : ∀ y ∈ stableInsertK ka x acc, ka y = kb (g y) := by
      intro y hy
      rcases mem_stableInsertK hy with h3 | h3
      · rw [h3]; exact hx
      · exact h1 y h3
    rw [ih (stableInsertK ka x acc) hacc
      (fun y hy => h2 y (List.mem_cons_of_mem _ hy))]
    rw [stableInsertK_map g ka kb x acc hx h1]

theorem ainsertSeg_map {α β : Type} (g : α → β) (ka : α → ℚ) (kb : β → ℚ)
    (l : List α) (h : ∀ y ∈ l, ka y = kb (g y)) :
    (ainsertSeg ka l).map g = ainsertSeg kb (l.map g) := by
  unfold ainsertSeg
  simpa using ainsertFold_map g ka kb l [] (by simp) h

theorem map_getD_range {α : Type} [Inhabited α] (l : List α) :
    (List.range l.length).map (fun i => l.getD i default) = l := by
  apply List.ext_getElem
  · simp
  · intro i h1 h2
    simp only [List.getElem_map, List.getElem_range]
    rw [List.getD_eq_getElem _ _ h2]

theorem sortValuesAsc_small {α : Type} [Inhabited α] (k : α → ℚ)
    (rows : List α) (h : rows.length ≤ 16) :
    sortValuesAsc k rows = ainsertSeg k rows := by
  unfold sortValuesAsc nargsort
  rw [List.length_map]
  simp only [aqsortSeg]
  rw [if_neg (by simp; omega)]
  have hk : ∀ i ∈ List.range rows.length,
      (rows.map k).getD i 0 = k (rows.getD i default) := by
    intro i hi
    have hi' : i < rows.length := List.mem_range.mp hi
    rw [List.getD_eq_getElem _ _ (by simpa using hi'),
      List.getD_eq_getElem _ _ hi', List.getElem_map]
  rw [ainsertSeg_map (fun i => rows.getD i default)
    (fun i => (rows.map k).getD i 0) k (List.range rows.length) hk]
  rw [map_getD_range]

theorem mem_insertSortedDedup {y x : String} :
    ∀ {l : List String}, y ∈ insertSortedDedup x l → y = x ∨ y ∈ l := by
  intro l
  induction l with
  | nil => intro h; simpa [insertSortedDedup] using h
  | cons z zs ih =>
    intro h
    unfold insertSortedDedup at h
    by_cases h1 : x = z
    · rw [if_pos h1] at h
      exact Or.inr h
    · rw [if_neg h1] at h
      by_cases h2 : x < z
      · rw [if_pos h2] at h
        rcases List.mem_cons.mp h with h3 | h3
        · exact Or.inl h3
        · exact Or.inr h3
      · rw [if_neg h2] at h
        rcases List.mem_cons.mp h with h3 | h3
        · exact Or.inr (by simp [h3])
        · rcases ih h3 with h4 | h4
          · exact Or.inl h4
          · exact Or.inr (List.mem_cons_of_mem _ h4)

theorem mem_foldl_insertSortedDedup :
    ∀ (xs acc : List String) (y : String),
    y ∈ xs.foldl (fun a x => insertSortedDedup x a) acc → y ∈ acc ∨ y ∈ xs := by
  intro xs
  induction xs with
  | nil => intro acc y h; exact Or.inl h
  | cons x t ih =>
    intro acc y h
    rcases ih (insertSortedDedup x acc) y h with h1 | h1
    · rcases mem_insertSortedDedup h1 with h2 | h2
      · exact Or.inr (by simp [h2])
      · exact Or.inl h2
    · exact Or.inr (List.mem_cons_of_mem _ h1)

theorem mem_sortedUnique {y : String} {xs : List String}
    (h : y ∈ sortedUnique xs) : y ∈ xs := by
  rcases mem_foldl_insertSortedDedup xs [] y h with h1 | h1
  · simp at h1
  · exact h1

-- ---------------------------------------------------------------------------
-- Claims C2 and C4
-- ---------------------------------------------------------------------------

/-- Claim C2 (amended): `regionBreakdown` returns the region's rows sorted
ascending by rate in a deterministic order; whenever the region's slice has
at most 16 rows the numpy introsort stays in its insertion sort, so the
result is exactly the stable ascending sort — ties broken by original row
order. For larger slices the quicksort partition may reorder tied rows (see
the counterexample), so stability is not guaranteed in general. -/
theorem c2_breakdown_stable_small (chartRows : List Row) (regionName : String)
    (h : (chartRows.filter (fun r => r.region == regionName)).length ≤ 16) :
    regionBreakdown chartRows regionName
      = stableSortByRate (chartRows.filter (fun r => r.region == regionName)) := by
  unfold regionBreakdown stableSortByRate
  exact sortValuesAsc_small _ _ h

/-- Witness for C2 on a three-row slice with a tie: the two tied rows keep
their original relative order below the 17-row threshold. -/
theorem c2_witness :
    regionBreakdown exTieSmall ("A")
      = [⟨"A", "Basic Antigen", "P0", 30⟩,
         ⟨"A", "Basic Antigen", "P1", 70⟩,
         ⟨"A", "Basic Antigen", "P2", 70⟩] := by
  have h := c2_breakdown_stable_small exTieSmall ("A") (by decide)
  rw [h]
  with_unfolding_all rfl

/-- Counterexample to C2 as stated: seventeen rows of one region, all tied
on the rate. A stable sort must return them in original row order (the
filter is the identity here), but the numpy quicksort partition step swaps
tied rows once a slice exceeds 16 elements, so the breakdown comes back in a
different order. -/
theorem c2_counterexample :
    exTie17.all (fun r => r.coverage_rate == 50) = true
    ∧ exTie17.filter (fun r => r.region == "A") = exTie17
    ∧ regionBreakdown exTie17 ("A") ≠ exTie17 := by
  refine ⟨by decide, by decide, ?_⟩
  intro hEq
  have h1 : (regionBreakdown exTie17 ("A")).map (fun r => r.vaccine)
      = ["V0", "V14", "V13", "V12", "V11", "V10", "V9", "V15", "V8", "V6",
         "V5", "V4", "V3", "V2", "V1", "V7", "V16"] := by
    with_unfolding_all rfl
  rw [hEq] at h1
  have h2 : exTie17.map (fun r => r.vaccine)
      = ["V0", "V1", "V2", "V3", "V4", "V5", "V6", "V7", "V8", "V9",
         "V10", "V11", "V12", "V13", "V14", "V15", "V16"] := by decide
  rw [h2] at h1
  exact absurd h1 (by decide)

/-- Claim C4: a selected region with no rows for the selected category is
entirely absent from the groupby result (`regionAverages`) and from the
pivot's row labels, and every pivot cell for it is the explicit no-data
value `none`; in particular it never appears paired with 0. -/
theorem c4_absent_region_excluded (df : List Row) (sel : Selection) (r : String)
    (_hr : r ∈ sel.regions)
    (h : (chartSlice (filterByRegion df sel.regions) sel.category).filter
      (fun x => x.region == r) = []) :
    (∀ q, (r, q) ∉ regionAverages
      (chartSlice (filterByRegion df sel.regions) sel.category))
    ∧ r ∉ pivotRegions (chartSlice (filterByRegion df sel.regions) sel.category)
    ∧ ∀ v, pivotCell (chartSlice (filterByRegion df sel.regions) sel.category)
      r v = none := by
  have hnot : ∀ x ∈ chartSlice (filterByRegion df sel.regions) sel.category,
      x.region ≠ r := by
    intro x hx
    have h1 := List.filter_eq_nil_iff.mp h x hx
    simpa using h1
  have hmem : r ∉ (chartSlice (filterByRegion df sel.regions)
      sel.category).map (fun x => x.region) := by
    intro hm
    rcases List.mem_map.mp hm with ⟨x, hx, hxr⟩
    exact hnot x hx hxr
  have hpiv : r ∉ pivotRegions (chartSlice (filterByRegion df sel.regions)
      sel.category) := fun hm => hmem (mem_sortedUnique hm)
  refine ⟨?_, hpiv, ?_⟩
  · intro q hq
    unfold regionAverages at hq
    rcases List.mem_filterMap.mp hq with ⟨nm, hnm, heq⟩
    rcases Option.map_eq_some'.mp heq with ⟨m, _, hm2⟩
    have hnmr : nm = r := congrArg Prod.fst hm2
    exact hpiv (hnmr ▸ hnm)
  · intro v
    unfold pivotCell
    have hfil : (chartSlice (filterByRegion df sel.regions)
        sel.category).filter (fun x => x.region == r && x.vaccine == v) = [] := by
      apply List.filter_eq_nil_iff.mpr
      intro a ha hand
      have h1 : a.region = r := by
        have := (Bool.and_eq_true _ _).mp hand
        simpa using this.1
      exact hnot a ha h1
    rw [hfil]
    rfl

/-- Witness for C4: in `exDf4` under the `Summary Indicator` selection,
region `A` is selected but has no chart rows — it is absent from the region
averages and the pivot rows, and its `FIC` cell is `none`, while `B` is
present with its value. -/
theorem c4_witness :
    (∀ q, ("A", q) ∉ regionAverages
      (chartSlice (filterByRegion exDf4 ["A", "B"]) "Summary Indicator"))
    ∧ "A" ∉ pivotRegions
      (chartSlice (filterByRegion exDf4 ["A", "B"]) "Summary Indicator")
    ∧ pivotCell (chartSlice (filterByRegion exDf4 ["A", "B"])
      "Summary Indicator") "A" "FIC" = none := by
  have h := c4_absent_region_excluded exDf4 ⟨["A", "B"], "Summary Indicator"⟩
    "A" (by decide) (by decide)
  exact ⟨h.1, h.2.1, h.2.2 ("FIC")⟩
